import Mathlib

/-!
Verification of the Visual QTE module (Foundry VTT): a shallow embedding of
the challenge generator (`VisualQTE.trigger`), the session gate
(`QTEOverlay.startSession`), the mash engine (`handleMashKey`, `gameLoop`,
`endMash`) and the sequence engine (`handleSequenceKey`,
`resolveSequenceStep`, `playNextSequence`, `finishSequence`).

Modelling conventions:
- JavaScript numbers are modelled as exact rationals (`ℚ`).  Every numeric
  constant the claims exercise (`0.3`, `0.4`, `windowSize / 2`,
  `150 * 0.4 = 60`, `fails / total` vs `0.3` for small counts) is computed
  exactly by IEEE double arithmetic as well, so the rational model agrees
  with the source on all claim-relevant comparisons.  The one place where
  double semantics differ from `ℚ` — `0 / 0` being `NaN`, with `NaN <= 0.3`
  false — is modelled explicitly in `failRatioLE`.
- DOM/animation side effects (css updates, sounds, the keydown blocker,
  timer handles) are not part of any claim's observable state and are left
  out; the remaining run state (all the mutated static fields of
  `QTEOverlay`) is `OverlayState`, and chat posts are returned as values.
- `Math.random()` draws are passed in as an explicit stream of rationals;
  the source guarantees only that each draw lies in `[0, 1)`.
- Asynchronous continuations (the `setTimeout` that advances to the next
  sequence step) are run synchronously at an explicitly passed timestamp;
  a call of a handler models one invocation of the JS handler.
-/

/-- Alphabet used by the generator: 26 letters plus space
(`'ABCDEFGHIJKLMNOPQRSTUVWXYZ '` in the source). -/
def qteChars : List Char := "ABCDEFGHIJKLMNOPQRSTUVWXYZ ".toList

/-- One entry of the pre-generated key sequence (the object pushed onto
`data.sequence` in `VisualQTE.trigger`). -/
structure Prompt where
  id : ℕ
  keyDisplay : String
  targetKey : String
  duration : ℚ
  hitTime : ℚ
  windowSize : ℚ
deriving DecidableEq, Repr

/-- Body of the generation loop of `VisualQTE.trigger` for index `i`, with
the two `Math.random()` draws of that iteration passed as `r.1` (key
choice) and `r.2` (hit-time ratio).  `charAt` of an in-range index is
modelled by `List.getD`; the default is never reached for draws in
`[0, 1)`. -/
def mkPrompt (duration windowSize : ℚ) (i : ℕ) (r : ℚ × ℚ) : Prompt :=
  let randomChar := qteChars.getD (Int.toNat ⌊r.1 * (qteChars.length : ℚ)⌋) ' '
  let keyDisplay := if randomChar = ' ' then "SPACE" else String.mk [randomChar]
  let keyCode := if randomChar = ' ' then "Space" else "Key" ++ String.mk [randomChar]
  let minRatio : ℚ := 3 / 10
  let maxRatio : ℚ := 7 / 10
  let randomRatio := r.2 * (maxRatio - minRatio) + minRatio
  let targetTime := duration * randomRatio
  { id := i
    keyDisplay := keyDisplay
    targetKey := keyCode
    duration := duration
    hitTime := targetTime
    windowSize := windowSize }

/-- The sequence-generation loop of `VisualQTE.trigger` (the spec's
`generateSequence`): `count` iterations of `mkPrompt`, with `rands i` the
random draws of iteration `i`. -/
def generateSequence (count : ℕ) (duration windowSize : ℚ) (rands : ℕ → ℚ × ℚ) :
    List Prompt :=
  (List.range count).map (fun i => mkPrompt duration windowSize i (rands i))

/-- The merged challenge data that `trigger` dispatches and
`startSession` receives (defaults already applied by
`foundry.utils.mergeObject`). -/
structure QTEData where
  title : String
  mode : String
  count : ℕ
  duration : ℚ
  windowSize : ℚ
  mashDecay : ℚ
  mashDuration : ℚ
  mashPower : ℚ
  gmPlay : Bool
  targetIds : List String
  sequence : List Prompt
deriving DecidableEq, Repr

/-- The defaults `trigger` merges under the caller's config. -/
def defaultQTEData : QTEData :=
  { title := ""
    mode := "sequence"
    count := 3
    duration := 2500
    windowSize := 300
    mashDecay := 30
    mashDuration := 10
    mashPower := 6
    gmPlay := true
    targetIds := []
    sequence := [] }

/-- A socket dispatch performed by `trigger`: either
`executeForUsers("startQTESession", ids, data)` or
`executeForEveryone("startQTESession", data)`. -/
inductive SendAction where
  | toUsers (ids : List String) (payload : QTEData)
  | everyone (payload : QTEData)
deriving DecidableEq, Repr

/-- Observable outcome of one `VisualQTE.trigger` call: the
`ui.notifications` error / info texts shown and the socket send
performed (if any). -/
structure TriggerResult where
  errorMsg : Option String
  infoMsg : Option String
  send : Option SendAction
deriving DecidableEq, Repr

/-- `VisualQTE.trigger`.  `socketReady` models whether `qteSocket` has been
initialised by the `socketlib.ready` hook; `cfg` is the already-merged
configuration (its `sequence` field is ignored and regenerated), and
`rands` the random stream for the generation loop. -/
def trigger (socketReady : Bool) (cfg : QTEData) (rands : ℕ → ℚ × ℚ) :
    TriggerResult :=
  if !socketReady then
    { errorMsg := some "Visual-QTE | Socketlib 未加载，无法运行。"
      infoMsg := none
      send := none }
  else
    let data :=
      if cfg.mode = "sequence" then
        { cfg with sequence := generateSequence cfg.count cfg.duration cfg.windowSize rands }
      else cfg
    if 0 < data.targetIds.length then
      { errorMsg := none
        infoMsg := some ("QTE [" ++ data.mode ++ "] 已发送给 " ++
          toString data.targetIds.length ++ " 位指定玩家。")
        send := some (SendAction.toUsers data.targetIds data) }
    else
      { errorMsg := none
        infoMsg := some ("QTE [" ++ data.mode ++ "] 已广播给所有人。")
        send := some (SendAction.everyone data) }

/-- One recorded sequence-step outcome (the object pushed onto
`QTEOverlay.results` by `resolveSequenceStep`). -/
structure StepResult where
  key : String
  success : Bool
  ratingText : String
  ratingClass : String
  diff : ℚ
deriving DecidableEq, Repr

/-- One row of the sequence battle-report table (dynamic parts of the
`<tr>` template of `finishSequence`). -/
structure SeqRow where
  key : String
  ratingText : String
  color : String
  diffText : String
deriving DecidableEq, Repr

/-- Dynamic content of a chat report: the single-line mash report of
`endMash` or the tabular summary of `finishSequence`.  The surrounding
static HTML markup carries no data and is elided. -/
inductive ChatContent where
  | mashLine (userName displayTitle text color : String)
  | seqSummary (totalScoreTitle totalScoreColor userName : String)
      (rows : List SeqRow) (perfects goods fails : ℕ)
deriving DecidableEq, Repr

/-- Data handed to `ChatMessage.create`: `user` is the explicit `user:`
field when present (`finishSequence` passes `game.user.id`; `endMash`
passes no `user` field at all, hence `none`). -/
structure ChatMsg where
  user : Option String
  content : ChatContent
deriving DecidableEq, Repr

/-- The mutable static fields of `QTEOverlay` (the per-client run state).
Timer/animation handles (`timeoutId`, `mashLoopId`) are omitted;
`listenerBound` records whether the keydown listener is attached. -/
structure OverlayState where
  isActive : Bool
  mode : Option String
  title : String
  sequence : List Prompt
  currentIndex : ℕ
  results : List StepResult
  startTime : ℚ
  mashProgress : ℚ
  mashDecay : ℚ
  mashPower : ℚ
  mashEndTime : ℚ
  lastFrameTime : ℚ
  listenerBound : Bool
deriving DecidableEq, Repr

/-- Initial values of the static fields of `QTEOverlay`. -/
def initialOverlay : OverlayState :=
  { isActive := false
    mode := none
    title := ""
    sequence := []
    currentIndex := 0
    results := []
    startTime := 0
    mashProgress := 50
    mashDecay := 20
    mashPower := 6
    mashEndTime := 0
    lastFrameTime := 0
    listenerBound := false }

/-- The fields of a DOM `KeyboardEvent` the two handlers read
(`e.repeat`, `e.ctrlKey`, `e.altKey`, `e.metaKey`, `e.code`). -/
structure KeyEvent where
  isRepeat : Bool
  ctrlKey : Bool
  altKey : Bool
  metaKey : Bool
  code : String
deriving DecidableEq, Repr

/-- The comparison `failRatio <= 0.3` of `finishSequence`, where
`failRatio = fails / totalCount` in IEEE doubles.  When `totalCount = 0`
the JS quotient is `NaN` and `NaN <= 0.3` is `false`; that case is made
explicit here.  For `totalCount ≠ 0` the correctly-rounded double
comparison agrees with the exact rational one for every realistic count
(a disagreement would need `totalCount > 10^16`). -/
def failRatioLE (fails totalCount : ℕ) : Bool :=
  if totalCount = 0 then false
  else decide ((fails : ℚ) / (totalCount : ℚ) ≤ 3 / 10)

/-- Aggregate verdict tiers of `finishSequence`: 失败 / 完美达成!! /
全部成功! / 成功. -/
inductive Verdict where
  | failed
  | flawless
  | allClear
  | cleared
deriving DecidableEq, Repr

/-- The nested verdict conditionals of `finishSequence`
(`totalScoreTitle` starts as "failed" and is upgraded inside
`if (failRatio <= 0.3)`). -/
def sequenceVerdict (perfects fails totalCount : ℕ) : Verdict :=
  if failRatioLE fails totalCount then
    if fails = 0 then
      if perfects = totalCount then Verdict.flawless else Verdict.allClear
    else Verdict.cleared
  else Verdict.failed

/-- Title suffix chosen for each verdict in `finishSequence`. -/
def verdictText : Verdict → String
  | Verdict.failed => "失败"
  | Verdict.flawless => "完美达成!!"
  | Verdict.allClear => "全部成功!"
  | Verdict.cleared => "成功"

/-- Accent colour chosen for each verdict in `finishSequence`. -/
def verdictColor : Verdict → String
  | Verdict.failed => "#f87171"
  | Verdict.flawless => "#ffd700"
  | Verdict.allClear => "#4ade80"
  | Verdict.cleared => "#fbbf24"

/-- Row colour of the report table:
`r.success ? (perfect ? '#fbbf24' : '#4ade80') : '#f87171'`. -/
def rowColor (r : StepResult) : String :=
  if r.success then
    if r.ratingClass = "result-perfect" then "#fbbf24" else "#4ade80"
  else "#f87171"

/-- Timing column of the report table:
`r.success ? Math.round(r.diff) + 'ms' : '-'`.  `Math.round` (half-up)
coincides with Mathlib's `round` on `ℚ`. -/
def rowDiffText (r : StepResult) : String :=
  if r.success then toString (round r.diff) ++ "ms" else "-"

/-- `QTEOverlay.finishSequence`: clears `isActive`, tallies
perfect/good/fail counts from `ratingClass` (the source's `forEach`
if/else-if chain), computes the aggregate verdict from the fail ratio and
posts the tabular summary with `user: game.user.id`. -/
def finishSequence (gameUserId gameUserName : String) (s : OverlayState) :
    OverlayState × ChatMsg :=
  let s1 := { s with isActive := false }
  let perfects := s.results.countP (fun r => r.ratingClass == "result-perfect")
  let goods := s.results.countP (fun r =>
    r.ratingClass != "result-perfect" && r.ratingClass == "result-good")
  let fails := s.results.countP (fun r =>
    r.ratingClass != "result-perfect" && r.ratingClass != "result-good")
  let rows := s.results.map (fun r =>
    { key := r.key
      ratingText := r.ratingText
      color := rowColor r
      diffText := rowDiffText r : SeqRow })
  let baseTitle := if s.title = "" then "挑战" else s.title
  let totalCount := s.results.length
  let v := sequenceVerdict perfects fails totalCount
  (s1,
   { user := some gameUserId
     content := ChatContent.seqSummary (baseTitle ++ " " ++ verdictText v)
       (verdictColor v) gameUserName rows perfects goods fails })

/-- `QTEOverlay.playNextSequence`: finish when `currentIndex` has reached
the end of the sequence, otherwise arm the next step (bind the listener
and record the step start time; `now` models the `Date.now()` call). -/
def playNextSequence (gameUserId gameUserName : String) (now : ℚ)
    (s : OverlayState) : OverlayState × List ChatMsg :=
  if s.sequence.length ≤ s.currentIndex then
    let r := finishSequence gameUserId gameUserName s
    (r.1, [r.2])
  else
    ({ s with listenerBound := true, startTime := now }, [])

/-- `QTEOverlay.resolveSequenceStep`: unbind the listener, cancel the
timeout, record the `StepResult`, then (after the UI delay, modelled as
running at time `tNext`) advance `currentIndex` and play the next step. -/
def resolveSequenceStep (gameUserId gameUserName : String) (success : Bool)
    (text cssClass : String) (d : Prompt) (diff : ℚ) (tNext : ℚ)
    (s : OverlayState) : OverlayState × List ChatMsg :=
  let s1 := { s with
    listenerBound := false
    results := s.results ++
      [{ key := d.keyDisplay
         success := success
         ratingText := text
         ratingClass := cssClass
         diff := diff : StepResult }] }
  let s2 := { s1 with currentIndex := s1.currentIndex + 1 }
  playNextSequence gameUserId gameUserName tNext s2

/-- `QTEOverlay.handleSequenceKey` for the armed prompt `d`: ignore
auto-repeat and ctrl/alt/meta chords; on the correct key classify
`diff = |elapsed - hitTime|` against `perfectWindow = halfWindow * 0.4`
and `halfWindow = windowSize / 2`; on a wrong key resolve as 按键错误.
`now` models the `Date.now()` call inside the handler. -/
def handleSequenceKey (gameUserId gameUserName : String) (event : KeyEvent)
    (d : Prompt) (now tNext : ℚ) (s : OverlayState) :
    OverlayState × List ChatMsg :=
  if event.isRepeat || event.ctrlKey || event.altKey || event.metaKey then
    (s, [])
  else
    let pressedKey := event.code
    if pressedKey = d.targetKey then
      let elapsed := now - s.startTime
      let diff := |elapsed - d.hitTime|
      let halfWindow := d.windowSize / 2
      let perfectWindow := halfWindow * (4 / 10)
      if diff ≤ perfectWindow then
        resolveSequenceStep gameUserId gameUserName true "完美!!"
          "result-perfect" d diff tNext s
      else if diff ≤ halfWindow then
        resolveSequenceStep gameUserId gameUserName true "精彩"
          "result-good" d diff tNext s
      else
        resolveSequenceStep gameUserId gameUserName false "太早/太晚"
          "result-bad" d diff tNext s
    else
      resolveSequenceStep gameUserId gameUserName false "按键错误"
        "result-bad" d 0 tNext s

/-- `QTEOverlay.endMash`: stop loop and listener, post the single-line
report (note: `ChatMessage.create` is called without a `user:` field) and
clear `isActive` when the delayed UI teardown completes. -/
def endMash (gameUserName : String) (success : Bool) (text : String)
    (s : OverlayState) : OverlayState × ChatMsg :=
  let color := if success then "#4ade80" else "#f87171"
  let displayTitle := if s.title = "" then "连打挑战" else s.title
  ({ s with listenerBound := false, isActive := false },
   { user := none
     content := ChatContent.mashLine gameUserName displayTitle text color })

/-- `QTEOverlay.handleMashKey`: one invocation of the mash keydown
handler.  Only `e.repeat` is checked (no modifier-key filter); a space
press adds `mashPower` and, if that reaches 100, clamps to 100 and ends
the session as a win inside the same invocation.  The second component is
the chat report when the session ended. -/
def handleMashKey (gameUserName : String) (e : KeyEvent) (s : OverlayState) :
    OverlayState × Option ChatMsg :=
  if e.isRepeat then (s, none)
  else if e.code = "Space" then
    let s1 := { s with mashProgress := s.mashProgress + s.mashPower }
    if 100 ≤ s1.mashProgress then
      let r := endMash gameUserName true "突破成功!" { s1 with mashProgress := 100 }
      (r.1, some r.2)
    else (s1, none)
  else (s, none)

/-- One invocation of `QTEOverlay.gameLoop` at time `now`: apply decay
over the frame delta, then check loss (≤ 0), win (≥ 100) and deadline in
that order. -/
def gameLoop (gameUserName : String) (now : ℚ) (s : OverlayState) :
    OverlayState × List ChatMsg :=
  if !s.isActive || s.mode ≠ some "mash" then (s, [])
  else
    let deltaTime := (now - s.lastFrameTime) / 1000
    let s1 := { s with
      lastFrameTime := now
      mashProgress := s.mashProgress - s.mashDecay * deltaTime }
    if s1.mashProgress ≤ 0 then
      let r := endMash gameUserName false "被压制!" s1
      (r.1, [r.2])
    else if 100 ≤ s1.mashProgress then
      let r := endMash gameUserName true "突破成功!" s1
      (r.1, [r.2])
    else if s.mashEndTime < now then
      let r := endMash gameUserName false "时间耗尽!" s1
      (r.1, [r.2])
    else (s1, [])

/-- `QTEOverlay.startMash`: initialise progress 50, decay, power and the
deadline, bind the listener and run the first game-loop frame (at `now`,
so with a zero frame delta). -/
def startMash (gameUserName : String) (now : ℚ) (data : QTEData)
    (s : OverlayState) : OverlayState × List ChatMsg :=
  gameLoop gameUserName now
    { s with
      mashProgress := 50
      mashDecay := data.mashDecay
      mashPower := data.mashPower
      mashEndTime := now + data.mashDuration * 1000
      listenerBound := true
      lastFrameTime := now }

/-- `QTEOverlay.startSession`: ignore the dispatch when the client is a
game master excluded by `gmPlay`, or when a session is already active;
otherwise set the session flag, record mode and title and route to the
engine selected by `data.mode`. -/
def startSession (isGM : Bool) (gameUserId gameUserName : String) (now : ℚ)
    (data : QTEData) (s : OverlayState) : OverlayState × List ChatMsg :=
  if isGM && !data.gmPlay then (s, [])
  else if s.isActive then (s, [])
  else
    let s1 := { s with isActive := true, mode := some data.mode, title := data.title }
    if data.mode = "sequence" then
      let s2 := { s1 with sequence := data.sequence, currentIndex := 0, results := [] }
      playNextSequence gameUserId gameUserName now s2
    else if data.mode = "mash" then
      startMash gameUserName now data s1
    else (s1, [])

/-- Helper: advancing the sequence (finishing or arming the next step)
never modifies the recorded results. -/
theorem playNextSequence_results (gameUserId gameUserName : String) (now : ℚ)
    (s : OverlayState) :
    (playNextSequence gameUserId gameUserName now s).1.results = s.results := by
  unfold playNextSequence finishSequence
  split <;> rfl

/-- Test fixture: a plain (non-repeat, unmodified) space keydown event. -/
def spaceKey : KeyEvent :=
  { isRepeat := false, ctrlKey := false, altKey := false, metaKey := false
    code := "Space" }

/-- Test fixture: a running mash session at progress 95 with power 6. -/
def mash95 : OverlayState :=
  { initialOverlay with
    isActive := true
    mode := some "mash"
    mashProgress := 95
    mashPower := 6
    mashDecay := 30
    listenerBound := true }

/-- Test fixture: a running mash session at the initial progress 50. -/
def mashRun : OverlayState :=
  { initialOverlay with
    isActive := true
    mode := some "mash"
    mashProgress := 50
    mashPower := 6
    mashDecay := 30
    listenerBound := true }

/-- C1: while a session is active, or on a game-master client with
`gmPlay = false`, `startSession` is a no-op: the run state is returned
unchanged and no engine starts, no report is posted. -/
theorem c1_session_gate (isGM : Bool) (gameUserId gameUserName : String)
    (now : ℚ) (data : QTEData) (s : OverlayState) :
    (s.isActive = true →
      startSession isGM gameUserId gameUserName now data s = (s, [])) ∧
    (isGM = true → data.gmPlay = false →
      startSession isGM gameUserId gameUserName now data s = (s, [])) := by
  constructor
  · intro hAct
    unfold startSession
    by_cases hg : (isGM && !data.gmPlay) = true
    · simp [hg]
    · simp [hg, hAct]
  · intro hGM hPlay
    unfold startSession
    simp [hGM, hPlay]

/-- Witness for C1 at a concrete active session and at a concrete
excluded game master. -/
theorem c1_session_gate_witness :
    startSession false "u1" "Alice" 0 defaultQTEData mash95 = (mash95, []) ∧
    startSession true "u1" "Alice" 0 { defaultQTEData with gmPlay := false }
      initialOverlay = (initialOverlay, []) := by
  constructor
  · exact (c1_session_gate false "u1" "Alice" 0 defaultQTEData mash95).1 rfl
  · exact (c1_session_gate true "u1" "Alice" 0
      { defaultQTEData with gmPlay := false } initialOverlay).2 rfl rfl

/-- C2: a qualifying (non-auto-repeat) space press adds `mashPower` to
the progress synchronously in the handler; if the sum reaches 100 the
handler itself ends the session as a win (clamped to 100, listener
removed, flag cleared, win report produced) instead of leaving the
outcome to the next decay tick. -/
theorem c2_mash_press (gameUserName : String) (e : KeyEvent)
    (s : OverlayState) (hRep : e.isRepeat = false)
    (hCode : e.code = "Space") :
    (s.mashProgress + s.mashPower < 100 →
      handleMashKey gameUserName e s =
        ({ s with mashProgress := s.mashProgress + s.mashPower }, none)) ∧
    (100 ≤ s.mashProgress + s.mashPower →
      handleMashKey gameUserName e s =
        ({ s with mashProgress := 100, listenerBound := false, isActive := false },
         some { user := none
                content := ChatContent.mashLine gameUserName
                  (if s.title = "" then "连打挑战" else s.title)
                  "突破成功!" "#4ade80" })) := by
  constructor
  · intro hLt
    unfold handleMashKey
    simp [hRep, hCode, not_le.mpr hLt]
  · intro hGe
    unfold handleMashKey endMash
    simp [hRep, hCode, hGe]

/-- Witness for C2: a press at progress 95 with power 6 (sum 101) wins
within the handler invocation itself. -/
theorem c2_mash_press_witness :
    handleMashKey "Alice" spaceKey mash95 =
      ({ mash95 with mashProgress := 100, listenerBound := false, isActive := false },
       some { user := none
              content := ChatContent.mashLine "Alice" "连打挑战" "突破成功!" "#4ade80" }) := by
  have h := (c2_mash_press "Alice" spaceKey mash95 rfl rfl).2 (by norm_num [mash95, initialOverlay])
  simpa [mash95, initialOverlay] using h

/-- C7: when the socket collaborator is not initialised, `trigger`
aborts with the user-visible error notice and performs nothing else —
no info notice and no broadcast or targeted send (and hence no generated
sequence is dispatched). -/
theorem c7_transport_unavailable (cfg : QTEData) (rands : ℕ → ℚ × ℚ) :
    trigger false cfg rands =
      { errorMsg := some "Visual-QTE | Socketlib 未加载，无法运行。"
        infoMsg := none
        send := none } := by
  rfl

/-- C10: whenever the mash input handler ends the session (it only ever
ends it as a win), the stored progress at that moment is exactly 100. -/
theorem c10_win_clamp (gameUserName : String) (e : KeyEvent)
    (s s2 : OverlayState) (msg : ChatMsg)
    (h : handleMashKey gameUserName e s = (s2, some msg)) :
    s2.mashProgress = 100 := by
  unfold handleMashKey at h
  split at h
  · exact absurd (congrArg Prod.snd h) (by simp)
  · split at h
    · dsimp only at h
      split at h
      · injection h with ha hb
        rw [← ha]
        rfl
      · injection h with ha hb
        exact Option.noConfusion hb
    · exact absurd (congrArg Prod.snd h) (by simp)

/-- Witness for C10 at the concrete winning press of progress 95 plus
power 6. -/
theorem c10_win_clamp_witness :
    ({ mash95 with
       mashProgress := 100
       listenerBound := false
       isActive := false } : OverlayState).mashProgress = 100 := by
  have h : handleMashKey "Alice" spaceKey mash95 =
      ({ mash95 with
         mashProgress := 100
         listenerBound := false
         isActive := false },
       some { user := none
              content := ChatContent.mashLine "Alice" "连打挑战" "突破成功!" "#4ade80" }) := by
    unfold handleMashKey endMash
    norm_num [spaceKey, mash95, initialOverlay]
  exact c10_win_clamp "Alice" spaceKey mash95 _ _ h

/-- Test fixture: a plain keydown of `KeyA`. -/
def keyA : KeyEvent :=
  { isRepeat := false, ctrlKey := false, altKey := false, metaKey := false
    code := "KeyA" }

/-- Test fixture: the prompt of the spec's boundary example
(`windowSize = 300`, hit time 1000ms into the step). -/
def prompt300 : Prompt :=
  { id := 0, keyDisplay := "A", targetKey := "KeyA", duration := 2500
    hitTime := 1000, windowSize := 300 }

/-- Test fixture: a sequence session armed on `prompt300` with step start
time 0. -/
def seqArmed : OverlayState :=
  { initialOverlay with
    isActive := true
    mode := some "sequence"
    sequence := [prompt300]
    currentIndex := 0
    startTime := 0
    listenerBound := true }

/-- Helper: on a qualifying correct-key press, `handleSequenceKey`
appends exactly one `StepResult` whose tier follows the
perfect/good/miss comparison chain on `diff`. -/
theorem handleSequenceKey_tier (gameUserId gameUserName : String)
    (e : KeyEvent) (d : Prompt) (now tNext : ℚ) (s : OverlayState)
    (hr : e.isRepeat = false) (hc : e.ctrlKey = false)
    (ha : e.altKey = false) (hm : e.metaKey = false)
    (hk : e.code = d.targetKey) :
    (|now - s.startTime - d.hitTime| ≤ d.windowSize / 2 * (4 / 10) →
      (handleSequenceKey gameUserId gameUserName e d now tNext s).1.results =
        s.results ++ [{ key := d.keyDisplay, success := true
                        ratingText := "完美!!", ratingClass := "result-perfect"
                        diff := |now - s.startTime - d.hitTime| }]) ∧
    (d.windowSize / 2 * (4 / 10) < |now - s.startTime - d.hitTime| →
      |now - s.startTime - d.hitTime| ≤ d.windowSize / 2 →
      (handleSequenceKey gameUserId gameUserName e d now tNext s).1.results =
        s.results ++ [{ key := d.keyDisplay, success := true
                        ratingText := "精彩", ratingClass := "result-good"
                        diff := |now - s.startTime - d.hitTime| }]) ∧
    (d.windowSize / 2 < |now - s.startTime - d.hitTime| →
      (handleSequenceKey gameUserId gameUserName e d now tNext s).1.results =
        s.results ++ [{ key := d.keyDisplay, success := false
                        ratingText := "太早/太晚", ratingClass := "result-bad"
                        diff := |now - s.startTime - d.hitTime| }]) := by
  unfold handleSequenceKey
  rw [hr, hc, ha, hm]
  simp only [Bool.or_self, Bool.or_false, Bool.false_or, Bool.false_eq_true,
    if_false]
  rw [if_pos hk]
  refine ⟨?_, ?_, ?_⟩
  · intro h1
    rw [if_pos h1]
    unfold resolveSequenceStep
    dsimp only
    rw [playNextSequence_results]
  · intro h1 h2
    rw [if_neg (not_le.mpr h1), if_pos h2]
    unfold resolveSequenceStep
    dsimp only
    rw [playNextSequence_results]
  · intro h1
    have hnn : (0 : ℚ) ≤ |now - s.startTime - d.hitTime| := abs_nonneg _
    have h2 : ¬(|now - s.startTime - d.hitTime| ≤ d.windowSize / 2 * (4 / 10)) := by
      intro hle
      linarith
    rw [if_neg h2, if_neg (not_le.mpr h1)]
    unfold resolveSequenceStep
    dsimp only
    rw [playNextSequence_results]

/-- C3: a correct-key press is rated Perfect iff
`diff ≤ perfect = (windowSize/2) * 0.4`, Good iff
`perfect < diff ≤ half = windowSize/2`, and a Miss-timing failure iff
`diff > half`; for `windowSize = 300` a press with `diff = 60` is
Perfect, `diff = 61` and `diff = 150` are Good, and `diff = 151` is a
Miss-timing failure. -/
theorem c3_tier_classification :
    (∀ (gameUserId gameUserName : String) (e : KeyEvent) (d : Prompt)
       (now tNext : ℚ) (s : OverlayState),
      e.isRepeat = false → e.ctrlKey = false → e.altKey = false →
      e.metaKey = false → e.code = d.targetKey →
      (|now - s.startTime - d.hitTime| ≤ d.windowSize / 2 * (4 / 10) →
        (handleSequenceKey gameUserId gameUserName e d now tNext s).1.results =
          s.results ++ [{ key := d.keyDisplay, success := true
                          ratingText := "完美!!", ratingClass := "result-perfect"
                          diff := |now - s.startTime - d.hitTime| }]) ∧
      (d.windowSize / 2 * (4 / 10) < |now - s.startTime - d.hitTime| →
        |now - s.startTime - d.hitTime| ≤ d.windowSize / 2 →
        (handleSequenceKey gameUserId gameUserName e d now tNext s).1.results =
          s.results ++ [{ key := d.keyDisplay, success := true
                          ratingText := "精彩", ratingClass := "result-good"
                          diff := |now - s.startTime - d.hitTime| }]) ∧
      (d.windowSize / 2 < |now - s.startTime - d.hitTime| →
        (handleSequenceKey gameUserId gameUserName e d now tNext s).1.results =
          s.results ++ [{ key := d.keyDisplay, success := false
                          ratingText := "太早/太晚", ratingClass := "result-bad"
                          diff := |now - s.startTime - d.hitTime| }])) ∧
    (handleSequenceKey "u1" "Alice" keyA prompt300 1060 0 seqArmed).1.results =
      [{ key := "A", success := true, ratingText := "完美!!"
         ratingClass := "result-perfect", diff := 60 }] ∧
    (handleSequenceKey "u1" "Alice" keyA prompt300 1061 0 seqArmed).1.results =
      [{ key := "A", success := true, ratingText := "精彩"
         ratingClass := "result-good", diff := 61 }] ∧
    (handleSequenceKey "u1" "Alice" keyA prompt300 1150 0 seqArmed).1.results =
      [{ key := "A", success := true, ratingText := "精彩"
         ratingClass := "result-good", diff := 150 }] ∧
    (handleSequenceKey "u1" "Alice" keyA prompt300 1151 0 seqArmed).1.results =
      [{ key := "A", success := false, ratingText := "太早/太晚"
         ratingClass := "result-bad", diff := 151 }] := by
  have habs : ∀ t : ℚ, |t - seqArmed.startTime - prompt300.hitTime| = |t - 1000| := by
    intro t
    simp [seqArmed, prompt300, initialOverlay]
  refine ⟨fun gameUserId gameUserName e d now tNext s hr hc ha hm hk =>
    handleSequenceKey_tier gameUserId gameUserName e d now tNext s hr hc ha hm hk,
    ?_, ?_, ?_, ?_⟩
  · have h := (handleSequenceKey_tier "u1" "Alice" keyA prompt300 1060 0 seqArmed
      rfl rfl rfl rfl rfl).1
    rw [habs 1060, show |(1060 : ℚ) - 1000| = 60 by
      rw [show (1060 : ℚ) - 1000 = 60 by norm_num, abs_of_nonneg] <;> norm_num] at h
    simpa [seqArmed, initialOverlay, prompt300] using h (by norm_num [prompt300])
  · have h := (handleSequenceKey_tier "u1" "Alice" keyA prompt300 1061 0 seqArmed
      rfl rfl rfl rfl rfl).2.1
    rw [habs 1061, show |(1061 : ℚ) - 1000| = 61 by
      rw [show (1061 : ℚ) - 1000 = 61 by norm_num, abs_of_nonneg] <;> norm_num] at h
    simpa [seqArmed, initialOverlay, prompt300] using
      h (by norm_num [prompt300]) (by norm_num [prompt300])
  · have h := (handleSequenceKey_tier "u1" "Alice" keyA prompt300 1150 0 seqArmed
      rfl rfl rfl rfl rfl).2.1
    rw [habs 1150, show |(1150 : ℚ) - 1000| = 150 by
      rw [show (1150 : ℚ) - 1000 = 150 by norm_num, abs_of_nonneg] <;> norm_num] at h
    simpa [seqArmed, initialOverlay, prompt300] using
      h (by norm_num [prompt300]) (by norm_num [prompt300])
  · have h := (handleSequenceKey_tier "u1" "Alice" keyA prompt300 1151 0 seqArmed
      rfl rfl rfl rfl rfl).2.2
    rw [habs 1151, show |(1151 : ℚ) - 1000| = 151 by
      rw [show (1151 : ℚ) - 1000 = 151 by norm_num, abs_of_nonneg] <;> norm_num] at h
    simpa [seqArmed, initialOverlay, prompt300] using h (by norm_num [prompt300])

/-- Witness for C3: the Good-tier boundary press (`diff = 61` against
`perfect = 60`, `half = 150`) evaluated at concrete inputs. -/
theorem c3_tier_classification_witness :
    (handleSequenceKey "u2" "Bob" keyA prompt300 1061 0 seqArmed).1.results =
      seqArmed.results ++
        [{ key := prompt300.keyDisplay, success := true
           ratingText := "精彩", ratingClass := "result-good"
           diff := |(1061 : ℚ) - seqArmed.startTime - prompt300.hitTime| }] := by
  have hd : |(1061 : ℚ) - seqArmed.startTime - prompt300.hitTime| = 61 := by
    rw [show (1061 : ℚ) - seqArmed.startTime - prompt300.hitTime = 61 by
      norm_num [seqArmed, prompt300, initialOverlay]]
    rw [abs_of_nonneg] <;> norm_num
  exact (c3_tier_classification.1 "u2" "Bob" keyA prompt300 1061 0 seqArmed
    rfl rfl rfl rfl rfl).2.1
    (by rw [hd]; norm_num [prompt300]) (by rw [hd]; norm_num [prompt300])

/-- Test fixture: five recorded step results — two Perfect, two Good,
one fail (a timeout). -/
def rs5 : List StepResult :=
  [{ key := "A", success := true, ratingText := "完美!!"
     ratingClass := "result-perfect", diff := 50 },
   { key := "B", success := true, ratingText := "完美!!"
     ratingClass := "result-perfect", diff := 40 },
   { key := "C", success := true, ratingText := "精彩"
     ratingClass := "result-good", diff := 80 },
   { key := "D", success := true, ratingText := "精彩"
     ratingClass := "result-good", diff := 90 },
   { key := "E", success := false, ratingText := "超时"
     ratingClass := "result-bad", diff := 0 }]

/-- Report rows produced for `rs5`. -/
def rows5 : List SeqRow :=
  [{ key := "A", ratingText := "完美!!", color := "#fbbf24", diffText := "50ms" },
   { key := "B", ratingText := "完美!!", color := "#fbbf24", diffText := "40ms" },
   { key := "C", ratingText := "精彩", color := "#4ade80", diffText := "80ms" },
   { key := "D", ratingText := "精彩", color := "#4ade80", diffText := "90ms" },
   { key := "E", ratingText := "超时", color := "#f87171", diffText := "-" }]

/-- Test fixture: a sequence session that has recorded the five results
of `rs5`. -/
def seq5State : OverlayState :=
  { initialOverlay with
    isActive := true
    mode := some "sequence"
    sequence := []
    currentIndex := 5
    results := rs5 }

/-- C4: for a non-empty result list the aggregate verdict follows the
inclusive 0.3 fail-ratio threshold — ratio above 0.3 is Failed,
otherwise zero fails with all perfects is Flawless, zero fails otherwise
is All Clear, and a non-zero fail count within the threshold is Cleared;
concretely 1 fail of 5 (2 perfect, 2 good) is Cleared, 5 perfects are
Flawless, and 2 fails of 5 are Failed. -/
theorem c4_verdict_aggregation :
    (∀ perfects fails totalCount : ℕ, totalCount ≠ 0 →
      (((3 : ℚ) / 10 < (fails : ℚ) / (totalCount : ℚ) →
        sequenceVerdict perfects fails totalCount = Verdict.failed) ∧
      ((fails : ℚ) / (totalCount : ℚ) ≤ 3 / 10 → fails = 0 →
        perfects = totalCount →
        sequenceVerdict perfects fails totalCount = Verdict.flawless) ∧
      ((fails : ℚ) / (totalCount : ℚ) ≤ 3 / 10 → fails = 0 →
        perfects ≠ totalCount →
        sequenceVerdict perfects fails totalCount = Verdict.allClear) ∧
      ((fails : ℚ) / (totalCount : ℚ) ≤ 3 / 10 → fails ≠ 0 →
        sequenceVerdict perfects fails totalCount = Verdict.cleared))) ∧
    sequenceVerdict 2 1 5 = Verdict.cleared ∧
    sequenceVerdict 5 0 5 = Verdict.flawless ∧
    sequenceVerdict 3 2 5 = Verdict.failed ∧
    (finishSequence "u1" "Alice" seq5State).2.content =
      ChatContent.seqSummary "挑战 成功" "#fbbf24" "Alice" rows5 2 2 1 := by
  refine ⟨?_, ?_, ?_, ?_, ?_⟩
  · intro perfects fails totalCount ht
    refine ⟨?_, ?_, ?_, ?_⟩
    · intro hgt
      simp [sequenceVerdict, failRatioLE, ht, not_le.mpr hgt]
    · intro hle h0 hpt
      simp [sequenceVerdict, failRatioLE, ht, hle, h0, hpt] <;> norm_num
    · intro hle h0 hpt
      simp [sequenceVerdict, failRatioLE, ht, hle, h0, hpt] <;> norm_num
    · intro hle h0
      simp [sequenceVerdict, failRatioLE, ht, hle, h0]
  · norm_num [sequenceVerdict, failRatioLE]
  · norm_num [sequenceVerdict, failRatioLE]
  · norm_num [sequenceVerdict, failRatioLE]
  · have hperf : rs5.countP (fun r => r.ratingClass == "result-perfect") = 2 := by
      decide
    have hgood : rs5.countP (fun r =>
        r.ratingClass != "result-perfect" && r.ratingClass == "result-good") = 2 := by
      decide
    have hfail : rs5.countP (fun r =>
        r.ratingClass != "result-perfect" && r.ratingClass != "result-good") = 1 := by
      decide
    have hlen : rs5.length = 5 := by decide
    have hmap : rs5.map (fun r =>
        ({ key := r.key, ratingText := r.ratingText, color := rowColor r
           diffText := rowDiffText r } : SeqRow)) = rows5 := by
      simp [rs5, rows5, rowColor, rowDiffText] <;> decide
    have hv : sequenceVerdict 2 1 5 = Verdict.cleared := by
      norm_num [sequenceVerdict, failRatioLE]
    unfold finishSequence
    dsimp only [seq5State]
    rw [hperf, hgood, hfail, hlen, hmap, hv]
    decide

/-- Witness for C4: the general threshold rule applied at 2 fails out of
5 (ratio 0.4 above the threshold). -/
theorem c4_verdict_aggregation_witness :
    sequenceVerdict 4 2 5 = Verdict.failed := by
  exact (c4_verdict_aggregation.1 4 2 5 (by norm_num)).1 (by norm_num)

/-- Test fixture: a freshly started sequence session whose generated
sequence is empty (a zero-step challenge). -/
def emptySeqState : OverlayState :=
  { initialOverlay with
    isActive := true
    mode := some "sequence"
    sequence := []
    currentIndex := 0
    results := [] }

/-- Counterexample to C5: a zero-step sequence does finish immediately,
but its verdict is 挑战 失败 (Failed) — `fails / totalCount` is `0 / 0`,
`NaN` in the source, and `NaN <= 0.3` is false — not Flawless as
claimed. -/
theorem c5_zero_steps_counterexample :
    (playNextSequence "u1" "Alice" 0 emptySeqState).2 =
      [{ user := some "u1"
         content := ChatContent.seqSummary "挑战 失败" "#f87171" "Alice" [] 0 0 0 }] ∧
    (playNextSequence "u1" "Alice" 0 emptySeqState).1.isActive = false ∧
    sequenceVerdict 0 0 0 = Verdict.failed ∧
    sequenceVerdict 0 0 0 ≠ Verdict.flawless := by
  refine ⟨?_, ?_, ?_, ?_⟩ <;>
    simp [playNextSequence, finishSequence, emptySeqState, initialOverlay,
      sequenceVerdict, failRatioLE, verdictText, verdictColor]

/-- C5 as amended: a sequence session with zero steps finishes
immediately (the flag clears and the summary posts in the same call),
with verdict Failed — the `0 / 0` fail ratio is `NaN` and fails the
`<= 0.3` comparison, so the default failure verdict stands. -/
theorem c5_zero_steps_amended (gameUserId gameUserName : String) (now : ℚ)
    (s : OverlayState) (hseq : s.sequence = []) (hres : s.results = []) :
    playNextSequence gameUserId gameUserName now s =
      ({ s with isActive := false },
       [{ user := some gameUserId
          content := ChatContent.seqSummary
            ((if s.title = "" then "挑战" else s.title) ++ " " ++
              verdictText Verdict.failed)
            (verdictColor Verdict.failed) gameUserName [] 0 0 0 }]) := by
  unfold playNextSequence finishSequence
  simp [hseq, hres, sequenceVerdict, failRatioLE]

/-- Witness for C5's amended statement at the concrete empty session. -/
theorem c5_zero_steps_amended_witness :
    playNextSequence "u3" "Cara" 5 emptySeqState =
      ({ emptySeqState with isActive := false },
       [{ user := some "u3"
          content := ChatContent.seqSummary
            ((if emptySeqState.title = "" then "挑战" else emptySeqState.title) ++
              " " ++ verdictText Verdict.failed)
            (verdictColor Verdict.failed) "Cara" [] 0 0 0 }]) :=
  c5_zero_steps_amended "u3" "Cara" 5 emptySeqState rfl rfl

/-- Test fixture: a deterministic random stream whose ratio draw is
always 1/2. -/
def halfRand : ℕ → ℚ × ℚ := fun _ => (0, 1 / 2)

/-- C6: every prompt of a generated sequence has its hit-time offset in
the closed interval `[0.30 * stepDuration, 0.70 * stepDuration]`
(the draws of `Math.random()` lie in `[0, 1)`, and
`targetTime = duration * (draw * 0.4 + 0.3)`). -/
theorem c6_hit_time_bounds (count : ℕ) (duration windowSize : ℚ)
    (rands : ℕ → ℚ × ℚ) (hr : ∀ i, 0 ≤ (rands i).2 ∧ (rands i).2 < 1)
    (hd : 0 ≤ duration) :
    ∀ p ∈ generateSequence count duration windowSize rands,
      3 / 10 * duration ≤ p.hitTime ∧ p.hitTime ≤ 7 / 10 * duration := by
  intro p hp
  unfold generateSequence at hp
  simp only [List.mem_map, List.mem_range] at hp
  obtain ⟨i, hi, rfl⟩ := hp
  obtain ⟨h0, h1⟩ := hr i
  unfold mkPrompt
  dsimp only
  constructor
  · have key : (3 : ℚ) / 10 ≤ (rands i).2 * (7 / 10 - 3 / 10) + 3 / 10 := by
      nlinarith
    calc (3 : ℚ) / 10 * duration = duration * (3 / 10) := by ring
      _ ≤ duration * ((rands i).2 * (7 / 10 - 3 / 10) + 3 / 10) :=
          mul_le_mul_of_nonneg_left key hd
  · have key : (rands i).2 * (7 / 10 - 3 / 10) + 3 / 10 ≤ (7 : ℚ) / 10 := by
      nlinarith
    calc duration * ((rands i).2 * (7 / 10 - 3 / 10) + 3 / 10)
        ≤ duration * (7 / 10) := mul_le_mul_of_nonneg_left key hd
      _ = 7 / 10 * duration := by ring

/-- Witness for C6 at a one-step sequence with ratio draw 1/2
(hit time 1250 within `[750, 1750]` for duration 2500). -/
theorem c6_hit_time_bounds_witness :
    3 / 10 * 2500 ≤ (mkPrompt 2500 300 0 (halfRand 0)).hitTime ∧
      (mkPrompt 2500 300 0 (halfRand 0)).hitTime ≤ 7 / 10 * 2500 := by
  refine c6_hit_time_bounds 1 2500 300 halfRand
    (fun i => by norm_num [halfRand]) (by norm_num)
    (mkPrompt 2500 300 0 (halfRand 0)) ?_
  simp [generateSequence, (by decide : List.range 1 = [0])]

/-- Test fixture: a modifier-chorded space press (Ctrl held, not an
auto-repeat). -/
def ctrlSpace : KeyEvent :=
  { isRepeat := false, ctrlKey := true, altKey := false, metaKey := false
    code := "Space" }

/-- Test fixture: an auto-repeated space press. -/
def repeatSpace : KeyEvent :=
  { isRepeat := true, ctrlKey := false, altKey := false, metaKey := false
    code := "Space" }

/-- Counterexample to C8: a modifier-chorded (Ctrl) space press during a
running mash session is not ignored — `handleMashKey` checks only
`e.repeat`, so the press raises progress from 50 to 56. -/
theorem c8_modifier_counterexample :
    (handleMashKey "Alice" ctrlSpace mashRun).1.mashProgress = 56 ∧
    mashRun.mashProgress = 50 ∧ (56 : ℚ) ≠ 50 := by
  refine ⟨?_, rfl, by norm_num⟩
  unfold handleMashKey
  norm_num [ctrlSpace, mashRun, initialOverlay]

/-- C8 as amended: auto-repeated events are ignored by both handlers
with no run-state change and no recorded StepResult; modifier-chorded
(ctrl/alt/meta) events are ignored by the sequence handler only — the
mash handler is entirely insensitive to the modifier flags and processes
such a press normally. -/
theorem c8_ignored_input_amended (gameUserId gameUserName : String)
    (e : KeyEvent) (d : Prompt) (now tNext : ℚ) (s : OverlayState) :
    (e.isRepeat = true → handleMashKey gameUserName e s = (s, none)) ∧
    ((e.isRepeat || e.ctrlKey || e.altKey || e.metaKey) = true →
      handleSequenceKey gameUserId gameUserName e d now tNext s = (s, [])) ∧
    handleMashKey gameUserName e s =
      handleMashKey gameUserName
        { e with ctrlKey := false, altKey := false, metaKey := false } s := by
  refine ⟨?_, ?_, rfl⟩
  · intro h
    unfold handleMashKey
    simp [h]
  · intro h
    unfold handleSequenceKey
    rw [if_pos h]

/-- Witness for C8's amended statement: an auto-repeated space press is
a no-op for both engines at concrete states. -/
theorem c8_ignored_input_amended_witness :
    handleMashKey "Alice" repeatSpace mashRun = (mashRun, none) ∧
    handleSequenceKey "u1" "Alice" repeatSpace prompt300 0 0 seqArmed =
      (seqArmed, []) :=
  ⟨(c8_ignored_input_amended "u1" "Alice" repeatSpace prompt300 0 0 mashRun).1 rfl,
   (c8_ignored_input_amended "u1" "Alice" repeatSpace prompt300 0 0 seqArmed).2.1 rfl⟩

/-- Counterexample to C9: the mash outcome report is created without any
`user:` field — the posting client's user id is not attached to it
(only the name is interpolated into the message body). -/
theorem c9_mash_attribution_counterexample :
    (endMash "Alice" true "突破成功!" mashRun).2.user = none := rfl

/-- C9 as amended: the sequence summary is attributed by attaching the
posting client's user id, while the mash report carries no user id and
embeds only the acting user's name in its content. -/
theorem c9_attribution_amended (gameUserId gameUserName : String)
    (s s2 : OverlayState) (success : Bool) (text : String) :
    (finishSequence gameUserId gameUserName s).2.user = some gameUserId ∧
    (endMash gameUserName success text s2).2.user = none ∧
    (∃ dt c, (endMash gameUserName success text s2).2.content =
      ChatContent.mashLine gameUserName dt text c) :=
  ⟨rfl, rfl, ⟨_, _, rfl⟩⟩
